import Mathlib

/-!
Verification development for the dividat/driver repository.

Shallow embedding of the device session layer of the driver:
the USB device enumerator, the Flex session (connect / disconnect / discover),
the SensingTex and Sensitronics serial framers, the WebSocket hub's inbound
frame handling, and the Senso firmware-update flow.

Each definition is translated from the Go sources; file and function names
are recorded next to each definition.  Byte streams are modelled as
`List UInt8`, Go strings as `String`, Go `int` as `Int` where the value can
go negative (the framer counters), and fallible operations as `Option` or
`Except`.  Stateful methods are modelled as explicit state-passing functions
that additionally return the list of externally visible effects (port writes,
broadcasts, ...) the Go code performs.
-/

namespace DividatDriver

/-! ## Protocol data model (src/dividat-driver/protocol/main.go) -/

/-- `protocol.UsbDeviceInfo`: immutable description of a USB serial device.
`IdVendor`, `IdProduct` and `BcdDevice` are `uint16` in Go; they are modelled
as `Nat` (all values produced by the enumerator are parsed with
`strconv.ParseUint(s, 16, 16)` and hence fit in 16 bits). -/
structure UsbDeviceInfo where
  Path : String
  IdVendor : Nat
  IdProduct : Nat
  BcdDevice : Nat
  SerialNumber : String
  Manufacturer : String
  Product : String
deriving DecidableEq, Repr

/-- `zeroconf.ServiceEntry`, reduced to the fields the driver reads. -/
structure ServiceEntry where
  Instance : String
  HostName : String
deriving DecidableEq, Repr

/-- `protocol.DeviceInfo`: tagged wire variant (deviceType "flex" or "senso"). -/
inductive DeviceInfo
  | usb (info : UsbDeviceInfo)
  | tcp (entry : ServiceEntry)
deriving DecidableEq, Repr

/-- `protocol.MakeDeviceInfoUsb`. -/
def MakeDeviceInfoUsb (usbInfo : UsbDeviceInfo) : DeviceInfo :=
  DeviceInfo.usb usbInfo

/-- `protocol.MakeDeviceInfoTcp`. -/
def MakeDeviceInfoTcp (tcpInfo : ServiceEntry) : DeviceInfo :=
  DeviceInfo.tcp tcpInfo

/-! ## Device enumerator (src/dividat-driver/flex/enumerator/main.go) -/

namespace Enumerator

/-- `type DeviceFamily int` — Go models the family as an integer with three
named constants; values outside the three constants are representable,
which is what makes `deviceFamilyToHandler`'s `default: return nil` branch
syntactically necessary. -/
abbrev DeviceFamily := Int

/-- `DeviceFamilyPassthru DeviceFamily = iota` -/
def DeviceFamilyPassthru : DeviceFamily := 0

/-- `DeviceFamilySensingTex` -/
def DeviceFamilySensingTex : DeviceFamily := 1

/-- `DeviceFamilySensitronics` -/
def DeviceFamilySensitronics : DeviceFamily := 2

/-- `isTeensyDevice`: vendor id must equal 0x16C0. -/
def isTeensyDevice (device : UsbDeviceInfo) : Bool :=
  device.IdVendor == 0x16C0

/-- `findMatchingDeviceFamily`: classification of a `UsbDeviceInfo` into a
device family, or `none` (Go `nil`) for rejection.  Translated clause by
clause from the Go source; first match wins. -/
def findMatchingDeviceFamily (device : UsbDeviceInfo) : Option DeviceFamily :=
  if !(isTeensyDevice device) then
    none
  else if device.Product.startsWith "PASSTHRU" then
    some DeviceFamilyPassthru
  else if device.Manufacturer = "Teensyduino" then
    some DeviceFamilySensingTex
  else if device.Manufacturer = "Sensitronics" ∨ device.Manufacturer = "Dividat" then
    some DeviceFamilySensitronics
  else
    none

/-- `enumerator.MatchedDevice`: pair of family and device info. -/
structure MatchedDevice where
  Family : DeviceFamily
  Info : UsbDeviceInfo
deriving DecidableEq, Repr

/-- Classification as worded by the specification (spec §4.2), used to compare
`findMatchingDeviceFamily` against the spec's classification rules:
1. vendor id ≠ 0x16C0 → reject; 2. product begins with "PASSTHRU" → Passthru;
3. manufacturer = "Teensyduino" → SensingTex; 4. manufacturer ∈
{"Sensitronics", "Dividat"} → Sensitronics; 5. reject. -/
def claimedDeviceFamily (device : UsbDeviceInfo) : Option DeviceFamily :=
  if device.IdVendor ≠ 0x16C0 then
    none
  else if device.Product.startsWith "PASSTHRU" then
    some DeviceFamilyPassthru
  else if device.Manufacturer = "Teensyduino" then
    some DeviceFamilySensingTex
  else if device.Manufacturer = "Sensitronics" ∨ device.Manufacturer = "Dividat" then
    some DeviceFamilySensitronics
  else
    none

end Enumerator

/-! ## Flex device session (src/dividat-driver/flex/main.go, current layout:
the variant that uses `enumerator.MatchedDevice`, `context.AfterFunc` and the
per-family `SerialDeviceHandler`s) -/

namespace Flex

/-- The three handler implementations `deviceFamilyToHandler` can select
(`passthru.PassthruHandler`, `sensingtex.SensingTexHandler`,
`sensitronics.SensitronicsHandler`). -/
inductive SerialDeviceHandler
  | passthruHandler
  | sensingTexHandler
  | sensitronicsHandler
deriving DecidableEq, Repr

/-- `deviceFamilyToHandler`: Go `switch family` with a `default: return nil`
branch, modelled as an equality chain on the integer-valued family. -/
def deviceFamilyToHandler (family : Enumerator.DeviceFamily) : Option SerialDeviceHandler :=
  if family = Enumerator.DeviceFamilyPassthru then
    some SerialDeviceHandler.passthruHandler
  else if family = Enumerator.DeviceFamilySensingTex then
    some SerialDeviceHandler.sensingTexHandler
  else if family = Enumerator.DeviceFamilySensitronics then
    some SerialDeviceHandler.sensitronicsHandler
  else
    none

/-- `concealPassthruDevice`: strip the leading "PASSTHRU-" from `Product`
(Go `strings.TrimPrefix`, which removes the leading occurrence if present). -/
def concealPassthruDevice (deviceInfo : UsbDeviceInfo) : UsbDeviceInfo :=
  if deviceInfo.Product.startsWith "PASSTHRU-" then
    { deviceInfo with Product := deviceInfo.Product.drop 9 }
  else
    deviceInfo

/-- Mutable fields of `flex.DeviceBackend` relevant to connection changes:
`currentDevice` and whether `cancelCurrentConnection` is non-nil (a live
per-connection scope exists). -/
structure BackendState where
  currentDevice : Option UsbDeviceInfo
  connectionActive : Bool
deriving DecidableEq, Repr

/-- Externally visible effects of the connection-change operations. -/
inductive Effect
  | portOpen (path : String)
  | portClose
  | broadcastStatus
  | spawnReader (handler : SerialDeviceHandler)
  | nilHandlerError
deriving DecidableEq, Repr

/-- The `context.AfterFunc` hook installed by `connectInternal`: close the
port, clear `currentDevice`, clear `cancelCurrentConnection`, broadcast a
status update.  The hook runs at most once per connection scope. -/
def afterCancelHook (_st : BackendState) : BackendState × List Effect :=
  (⟨none, false⟩, [Effect.portClose, Effect.broadcastStatus])

/-- `DeviceBackend.Disconnect` (current variant): cancel the per-connection
scope if one exists; the after-cancel hook performs the teardown.  Cancelling
is modelled synchronously: the hook's effects happen as part of the call.
With no live scope (`cancelCurrentConnection == nil`) nothing happens. -/
def Disconnect (st : BackendState) : BackendState × List Effect :=
  if st.connectionActive then afterCancelHook st else (st, [])

/-- `connectInternal` errors: Go returns the `serial.Open` error when the
port cannot be opened.  Note that in the `reader == nil` branch the Go code
executes `return err` where `err` is `nil` at that point, so that branch
reports success; the model returns `none` there accordingly. -/
inductive ConnectError
  | openFailed
deriving DecidableEq, Repr

/-- `DeviceBackend.connectInternal`, modelled as a state transition.
`openOk` stands for the outcome of `backend.openSerial(device.Path)`.
The Go guard `reflect.DeepEqual(&device, backend.currentDevice)` compares the
pointee values and is false when `currentDevice` is nil, i.e. it holds
exactly when `currentDevice = some device`. -/
def connectInternal (st : BackendState) (matchedDevice : Enumerator.MatchedDevice)
    (openOk : Bool) : BackendState × Option ConnectError × List Effect :=
  let device := matchedDevice.Info
  if st.currentDevice = some device then
    (st, none, [])
  else
    -- disconnect current connection first
    let disc := Disconnect st
    if !openOk then
      (disc.1, some ConnectError.openFailed, disc.2)
    else
      let effs := disc.2 ++ [Effect.portOpen device.Path]
      match deviceFamilyToHandler matchedDevice.Family with
      | none =>
          -- "should not happen": log, close the port, `return err` (err = nil here)
          (disc.1, none, effs ++ [Effect.nilHandlerError, Effect.portClose])
      | some handler =>
          (⟨some device, true⟩, none,
            effs ++ [Effect.broadcastStatus, Effect.spawnReader handler])

/-- `DeviceBackend.Discover` (Flex): emits one `DeviceInfo` per matched device
from the current enumeration snapshot, then closes the channel.  The
`duration` parameter is accepted but never read by the Go code; the loop only
stops early when the per-connection context is already cancelled
(`ctx.Err() != nil`), modelled by the boolean `ctxCancelled` (checked before
each send, so a cancelled context yields an empty emission list). -/
def Discover (duration : Int) (ctxCancelled : Bool)
    (matching : List Enumerator.MatchedDevice) : List DeviceInfo :=
  let _ := duration
  if ctxCancelled then
    []
  else
    matching.map (fun matchedDevice =>
      MakeDeviceInfoUsb (concealPassthruDevice matchedDevice.Info))

end Flex

/-! ## SensingTex serial framer
(`readFromPort` and the bitdepth-command handling of `connectSerial` in
src/dividat-driver/flex/main.go; the same code lives in the
`sensing_tex` package variant of the sources) -/

namespace SensingTex

/-- `ReaderState`: states of the byte-level finite state machine. -/
inductive ReaderState
  | WAITING_FOR_HEADER
  | HEADER_START
  | HEADER_READ_LENGTH_MSB
  | HEADER_READ_LENGTH_LSB
  | WAITING_FOR_BODY
  | BODY_START
  | BODY_READ_SAMPLE
  | UNEXPECTED_BYTE
deriving DecidableEq, Repr

open ReaderState

/-- `HEADER_START_MARKER = 'N'` -/
def HEADER_START_MARKER : UInt8 := 78

/-- `BODY_START_MARKER = 'P'` -/
def BODY_START_MARKER : UInt8 := 80

/-- newline byte `'\n'` -/
def NEWLINE : UInt8 := 10

/-- `BYTES_PER_SAMPLE_8BIT = 3` -/
def BYTES_PER_SAMPLE_8BIT : Int := 3

/-- `BYTES_PER_SAMPLE_12BIT = 4` -/
def BYTES_PER_SAMPLE_12BIT : Int := 4

/-- `BITDEPTH_8_CMD = []byte{'U', 'L', '\n'}` -/
def BITDEPTH_8_CMD : List UInt8 := [85, 76, 10]

/-- `BITDEPTH_12_CMD = []byte{'U', 'M', '\n'}` -/
def BITDEPTH_12_CMD : List UInt8 := [85, 77, 10]

/-- `isBitdepthCommand` -/
def isBitdepthCommand (cmd : List UInt8) : Bool :=
  cmd == BITDEPTH_8_CMD || cmd == BITDEPTH_12_CMD

/-- `bitdepthCommandToBytesPerSample` -/
def bitdepthCommandToBytesPerSample (cmd : List UInt8) : Int :=
  if cmd == BITDEPTH_8_CMD then BYTES_PER_SAMPLE_8BIT else BYTES_PER_SAMPLE_12BIT

/-- The per-read-loop mutable variables of `readFromPort`:
`state`, `samplesLeftInSet`, `bytesLeftInSample` (Go `int`, may go negative
transiently before being compared with `<= 0`) and the sample buffer `buff`.
The local `var length_msb byte` of the Go loop body is NOT part of this
state: it is declared inside the `for` loop, so a fresh zero-valued
`length_msb` exists on every iteration and the value assigned in the
`HEADER_READ_LENGTH_MSB` case never survives to the next byte. -/
structure ParserState where
  state : ReaderState
  samplesLeftInSet : Int
  bytesLeftInSample : Int
  buff : List UInt8
deriving DecidableEq, Repr

/-- Initial values of the loop variables of `readFromPort`. -/
def initialParserState : ParserState :=
  ⟨WAITING_FOR_HEADER, 0, 0, []⟩

/-- One iteration of the `readFromPort` read loop on input byte `input`:
the Go `switch` on `(state, input)`, translated case by case in order
(first matching case wins).  Returns the updated loop variables and the
emitted frame, if this byte completed a measurement set.  The write of the
poll command `S\n` that follows each emission is a port effect not affecting
parsing and is not recorded here. -/
def stepByte (bytesPerSample : Int) (st : ParserState) (input : UInt8) :
    ParserState × Option (List UInt8) :=
  -- `var length_msb byte` — freshly zero on every iteration (see ParserState)
  let length_msb : UInt8 := 0
  if st.state = WAITING_FOR_HEADER ∧ input = HEADER_START_MARKER then
    ({ st with state := HEADER_START }, none)
  else if st.state = HEADER_START ∧ input = NEWLINE then
    ({ st with state := HEADER_READ_LENGTH_MSB }, none)
  else if st.state = HEADER_READ_LENGTH_MSB then
    -- `length_msb = input` assigns only the iteration-local variable
    ({ st with state := HEADER_READ_LENGTH_LSB }, none)
  else if st.state = HEADER_READ_LENGTH_LSB then
    -- `samplesLeftInSet = int(binary.BigEndian.Uint16([]byte{length_msb, length_lsb}))`
    ({ st with
        samplesLeftInSet := Int.ofNat (length_msb.toNat * 256 + input.toNat),
        state := WAITING_FOR_BODY }, none)
  else if st.state = WAITING_FOR_BODY ∧ input = BODY_START_MARKER then
    ({ st with state := BODY_START }, none)
  else if st.state = BODY_START ∧ input = NEWLINE then
    ({ st with state := BODY_READ_SAMPLE, buff := [], bytesLeftInSample := bytesPerSample }, none)
  else if st.state = BODY_READ_SAMPLE then
    let buff := st.buff ++ [input]
    let bytesLeft := st.bytesLeftInSample - 1
    if bytesLeft ≤ 0 then
      let samplesLeft := st.samplesLeftInSet - 1
      if samplesLeft ≤ 0 then
        -- finish and send set, get ready for the next one
        ({ state := WAITING_FOR_HEADER, samplesLeftInSet := samplesLeft,
           bytesLeftInSample := bytesLeft, buff := buff }, some buff)
      else
        ({ state := BODY_READ_SAMPLE, samplesLeftInSet := samplesLeft,
           bytesLeftInSample := bytesPerSample, buff := buff }, none)
    else
      ({ st with buff := buff, bytesLeftInSample := bytesLeft }, none)
  else if st.state = UNEXPECTED_BYTE ∧ input = HEADER_START_MARKER then
    ({ st with state := HEADER_START }, none)
  else
    ({ st with state := UNEXPECTED_BYTE }, none)

/-- Run the `readFromPort` state machine over a byte sequence, collecting the
emitted frames in order. -/
def runParser (bytesPerSample : Int) (st : ParserState) :
    List UInt8 → ParserState × List (List UInt8)
  | [] => (st, [])
  | input :: rest =>
      let r := stepByte bytesPerSample st input
      let tail := runParser bytesPerSample r.1 rest
      (tail.1, (match r.2 with | some frame => [frame] | none => []) ++ tail.2)

/-- Mutable state of the command-forwarding loop of `connectSerial`:
the configured bytes-per-sample and a generation counter for the inner
reader goroutine (incremented on each restart). -/
structure ConnState where
  configuredBytesPerSample : Int
  readerGeneration : Nat
deriving DecidableEq, Repr

/-- Port and reader effects performed by the command-forwarding loop. -/
inductive TxEffect
  | cancelAndAwaitReader
  | portWrite (data : List UInt8)
  | flushInputBuffer
  | restartReader
deriving DecidableEq, Repr

/-- The `case i := <-tx:` arm of `connectSerial`: handling one outbound
command.  A bitdepth command whose mode equals the configured one does
nothing; a differing one cancels the inner reader, waits for its done
signal, writes the mode switch, flushes the OS input buffer, updates the
configuration and restarts the reader; any other command is written to the
port verbatim. -/
def handleTxCommand (st : ConnState) (data : List UInt8) : ConnState × List TxEffect :=
  if isBitdepthCommand data then
    let newBytesPerSample := bitdepthCommandToBytesPerSample data
    if newBytesPerSample ≠ st.configuredBytesPerSample then
      (⟨newBytesPerSample, st.readerGeneration + 1⟩,
        [TxEffect.cancelAndAwaitReader, TxEffect.portWrite data,
         TxEffect.flushInputBuffer, TxEffect.restartReader])
    else
      (st, [])
  else
    (st, [TxEffect.portWrite data])

end SensingTex

/-! ## Sensitronics TLV framer
(src/dividat-driver/flex/sensitronics/main.go: `readMessage`, `readFromPort`) -/

namespace Sensitronics

/-- `HEADER_START_MARKER = 0xFF` -/
def HEADER_START_MARKER : UInt8 := 0xFF

/-- `HEADER_SIZE = 4` -/
def HEADER_SIZE : Nat := 4

/-- Read errors of `readMessage`: a failed byte read (`io.EOF` and friends)
or the `fmt.Errorf` raised when the first byte is not the start marker. -/
inductive ReadErr
  | eof
  | badMarker
deriving DecidableEq, Repr

/-- `readMessage`: read the start marker (terminating with an error if it is
not 0xFF), the type byte, the little-endian uint16 body length, then exactly
`length` body bytes (`io.ReadFull`), and reassemble the full framed record
(header included).  Returns the record together with the unconsumed rest of
the stream. -/
def readMessage (input : List UInt8) : Except ReadErr (List UInt8 × List UInt8) :=
  match input with
  | [] => Except.error ReadErr.eof
  | marker :: afterMarker =>
    if marker ≠ HEADER_START_MARKER then
      Except.error ReadErr.badMarker
    else
      match afterMarker with
      | messageType :: l0 :: l1 :: afterHeader =>
        -- `binary.LittleEndian.Uint16(lengthBytes)`
        let bodyLength := l0.toNat + 256 * l1.toNat
        if bodyLength ≤ afterHeader.length then
          Except.ok (marker :: messageType :: l0 :: l1 :: afterHeader.take bodyLength,
            afterHeader.drop bodyLength)
        else
          Except.error ReadErr.eof
      | _ => Except.error ReadErr.eof

theorem readMessage_rest_lt {input : List UInt8} {pr : List UInt8 × List UInt8}
    (h : readMessage input = Except.ok pr) : pr.2.length < input.length := by
  match input with
  | [] => simp [readMessage] at h
  | marker :: afterMarker =>
    unfold readMessage at h
    by_cases hm : marker = HEADER_START_MARKER
    · simp only [hm, ne_eq, not_true_eq_false, if_false, ite_false, if_neg, not_false_eq_true] at h
      match afterMarker with
      | [] => simp at h
      | [_] => simp at h
      | [_, _] => simp at h
      | messageType :: l0 :: l1 :: afterHeader =>
        simp only at h
        split at h
        · cases h
          simp only [List.length_drop, List.length_cons]
          omega
        · cases h
    · simp [hm] at h

/-- The read loop of `readFromPort`: repeatedly read one framed record and
emit it, stopping (and thereby terminating the connection) at the first read
error.  The startup write of `S\n` and the per-iteration context check are
port/cancellation effects that do not influence which records are emitted. -/
def runFramer (input : List UInt8) : List (List UInt8) :=
  match h : readMessage input with
  | Except.ok pr => pr.1 :: runFramer pr.2
  | Except.error _ => []
termination_by input.length
decreasing_by
  exact readMessage_rest_lt h

/-- A syntactically well-formed TLV record: start marker, type byte,
little-endian length, body of exactly that length. -/
def WellFormedTLV (record : List UInt8) : Prop :=
  ∃ messageType l0 l1 body, record = HEADER_START_MARKER :: messageType :: l0 :: l1 :: body
    ∧ body.length = l0.toNat + 256 * l1.toNat

theorem readMessage_wellFormed {record : List UInt8} (rest : List UInt8)
    (h : WellFormedTLV record) : readMessage (record ++ rest) = Except.ok (record, rest) := by
  obtain ⟨messageType, l0, l1, body, rfl, hlen⟩ := h
  have hle : l0.toNat + 256 * l1.toNat ≤ (body ++ rest).length := by
    rw [List.length_append, ← hlen]
    omega
  simp only [List.cons_append, readMessage]
  rw [if_neg (by simp), if_pos hle, ← hlen]
  simp [List.take_left, List.drop_left]

theorem runFramer_ok {input : List UInt8} {pr : List UInt8 × List UInt8}
    (h : readMessage input = Except.ok pr) :
    runFramer input = pr.1 :: runFramer pr.2 := by
  rw [runFramer]
  split
  · rename_i heq
    rw [h] at heq
    cases heq
    rfl
  · rename_i heq
    rw [h] at heq
    cases heq

theorem runFramer_error {input : List UInt8} {e : ReadErr}
    (h : readMessage input = Except.error e) : runFramer input = [] := by
  rw [runFramer]
  split
  · rename_i heq
    rw [h] at heq
    cases heq
  · rfl

end Sensitronics

/-! ## WebSocket hub (src/dividat-driver/util/websocket/main.go:
`ServeHTTP` reader loop and `ServeHTTP`'s firmware-update guard) -/

namespace Websocket

/-- `websocket.Command`: a struct of five pointers, of which JSON decoding
(`Command.UnmarshalJSON`) sets exactly one (the decoder dispatches on the
single `type` tag and returns an error for unknown tags). -/
structure Command where
  GetStatus : Option Unit
  Connect : Option String
  Disconnect : Option Unit
  Discover : Option Int
  UpdateFirmware : Option (String × String)
deriving DecidableEq, Repr

/-- A `Command` as produced by `Command.UnmarshalJSON`: exactly one variant
pointer is non-nil. -/
def decodedCommand (c : Command) : Prop :=
  (c.GetStatus.isSome.toNat + c.Connect.isSome.toNat + c.Disconnect.isSome.toNat
    + c.Discover.isSome.toNat + c.UpdateFirmware.isSome.toNat) = 1

instance (c : Command) : Decidable (decodedCommand c) := by
  unfold decodedCommand
  infer_instance

/-- What the reader loop of `ServeHTTP` does with one inbound frame. -/
inductive InboundAction
  | publishTx (data : List UInt8)
  | ignored
  | dispatch (c : Command)
  | warnUndecodable
deriving DecidableEq, Repr

/-- Handling of an inbound binary frame (`messageType == websocket.BinaryMessage`):
dropped while a firmware update is in progress, otherwise published to the
transmit topic. -/
def handleInboundBinary (updating : Bool) (msg : List UInt8) : InboundAction :=
  if updating then InboundAction.ignored else InboundAction.publishTx msg

/-- Handling of an inbound text frame (`messageType == websocket.TextMessage`)
after JSON decoding (`none` models a decode error).  The firmware-update
guard is the Go condition

`handle.DeviceBackend.IsUpdatingFirmware() && (command.GetStatus == nil || command.Discover == nil)`

translated verbatim; a command passing the guard is dispatched. -/
def handleInboundText (updating : Bool) (decoded : Option Command) : InboundAction :=
  match decoded with
  | none => InboundAction.warnUndecodable
  | some command =>
      if updating && (command.GetStatus.isNone || command.Discover.isNone) then
        InboundAction.ignored
      else
        InboundAction.dispatch command

/-- The `GetStatus` command as decoded from `{"type":"GetStatus"}`. -/
def getStatusCommand : Command := ⟨some (), none, none, none, none⟩

/-- A `Discover` command as decoded from `{"type":"Discover","duration":d}`. -/
def discoverCommand (duration : Int) : Command := ⟨none, none, none, some duration, none⟩

end Websocket

/-! ## Senso session: firmware update flow and discovery
(`ProcessFirmwareUpdateRequest` and `decodeImage` of the `senso` package
variant with `firmware.UpdateBySerial`; `DeviceBackend.Discover`) -/

namespace Senso

/-- Value of a character in the standard base64 alphabet
(`encoding/base64.StdEncoding`). -/
def base64Index (c : Char) : Option Nat :=
  if 'A' ≤ c ∧ c ≤ 'Z' then some (c.toNat - 65)
  else if 'a' ≤ c ∧ c ≤ 'z' then some (c.toNat - 97 + 26)
  else if '0' ≤ c ∧ c ≤ '9' then some (c.toNat - 48 + 52)
  else if c = '+' then some 62
  else if c = '/' then some 63
  else none

/-- Decode standard padded base64 quanta of four characters each, as
`base64.StdEncoding.Decode` does: every quantum decodes to three bytes,
except a final quantum ending in `=` (two bytes) or `==` (one byte); a
quantum containing a character outside the alphabet, padding in the middle
of the input, or a trailing group of fewer than four characters is a
`CorruptInputError`. -/
def decodeQuanta : List Char → Option (List UInt8)
  | [] => some []
  | a :: b :: c :: d :: rest => do
      let ia ← base64Index a
      let ib ← base64Index b
      if d = '=' then
        if rest = [] then
          if c = '=' then
            pure [UInt8.ofNat (ia * 4 + ib / 16)]
          else do
            let ic ← base64Index c
            pure [UInt8.ofNat (ia * 4 + ib / 16), UInt8.ofNat ((ib % 16) * 16 + ic / 4)]
        else
          none
      else do
        let ic ← base64Index c
        let id ← base64Index d
        let restBytes ← decodeQuanta rest
        pure ([UInt8.ofNat (ia * 4 + ib / 16), UInt8.ofNat ((ib % 16) * 16 + ic / 4),
          UInt8.ofNat ((ic % 4) * 64 + id)] ++ restBytes)
  | _ => none

/-- `decodeImage`: `base64.StdEncoding.DecodeString` (which skips carriage
returns and newlines before decoding in quanta of four); `none` models the
returned decode error. -/
def decodeImage (base64Str : String) : Option (List UInt8) :=
  decodeQuanta (base64Str.data.filter (fun ch => ch != '\r' && ch != '\n'))

/-- Mutable `senso.DeviceBackend` state relevant to the update flow:
the `updating` flag of the firmware-update arbiter and whether
`cancelCurrentConnection` is non-nil. -/
structure BackendState where
  updating : Bool
  connectionActive : Bool
deriving DecidableEq, Repr

/-- Externally visible effects of `ProcessFirmwareUpdateRequest`:
messages sent up the WebSocket (`send.Progress/Failure/Success`), the
cancellation of the current connection, and the invocation of the
firmware-update engine (`firmware.UpdateBySerial`). -/
inductive UpdateEffect
  | progressMsg (msg : String)
  | failureMsg (msg : String)
  | successMsg (msg : String)
  | cancelConnection
  | invokeEngine (serialNumber : String)
deriving DecidableEq, Repr

/-- Prefix of the failure reason the Go code builds with
`fmt.Sprintf("Error decoding base64 string: %v", err)`; the model does not
reproduce the text of the Go error value itself. -/
def decodeFailureReason : String := "Error decoding base64 string"

/-- `ProcessFirmwareUpdateRequest`, modelled as a state transition returning
the effect trace.  `engineOk` stands for the result of
`firmware.UpdateBySerial`.  Statement order follows the Go source: set
`updating := true`; if a connection exists, send a progress message and
cancel it; base64-decode the image, and on failure send a failure message
and return (the Go function returns here without touching the `updating`
flag again); otherwise run the engine and report success or failure, then
set `updating := false`. -/
def ProcessFirmwareUpdateRequest (st : BackendState) (serialNumber image : String)
    (engineOk : Bool) : BackendState × List UpdateEffect :=
  let st1 : BackendState := { st with updating := true }
  let disconnectEffects : List UpdateEffect :=
    if st.connectionActive then
      [UpdateEffect.progressMsg "Disconnecting from the Senso", UpdateEffect.cancelConnection]
    else
      []
  match decodeImage image with
  | none =>
      (st1, disconnectEffects ++ [UpdateEffect.failureMsg decodeFailureReason])
  | some _ =>
      let engineEffects :=
        if engineOk then
          [UpdateEffect.successMsg "Firmware successfully transmitted"]
        else
          [UpdateEffect.failureMsg "Failed to update firmware"]
      ({ st1 with updating := false },
        disconnectEffects ++ [UpdateEffect.invokeEngine serialNumber] ++ engineEffects)

/-- Modelled from the spec: the `service` package (`service.Scan`, mDNS
discovery) is not among the provided sources.  Spec §4.6: "mDNS browse for
the relevant service type, producing ServiceEntry values ... until the
caller-supplied duration elapses, then close the channel."  The mDNS
environment is modelled as a list of service entries paired with the time
(in seconds) at which the browser would produce them; `Scan` emits exactly
those produced strictly before the duration deadline. -/
def serviceScan (durationSeconds : Nat) (env : List (Nat × ServiceEntry)) :
    List ServiceEntry :=
  (env.filter (fun e => e.1 < durationSeconds)).map (fun e => e.2)

/-- `senso.DeviceBackend.Discover`: wrap each scanned `ServiceEntry` into a
`DeviceInfo` and close the channel when the scan channel closes. -/
def Discover (duration : Nat) (env : List (Nat × ServiceEntry)) : List DeviceInfo :=
  (serviceScan duration env).map MakeDeviceInfoTcp

end Senso

/-! ## Sample devices used by concrete witnesses -/

/-- A SensingTex-family mock device (vendor 0x16C0, manufacturer Teensyduino). -/
def sampleTeensyInfo : UsbDeviceInfo :=
  ⟨"/dev/ttyACM0", 0x16C0, 0x0483, 0x0277, "12345", "Teensyduino", "Flex"⟩

/-- A matched device as produced by the enumerator for `sampleTeensyInfo`. -/
def sampleMatchedDevice : Enumerator.MatchedDevice :=
  ⟨Enumerator.DeviceFamilySensingTex, sampleTeensyInfo⟩

/-! ## Claims -/

/-- Claim C4: device-family classification is a pure function of
`UsbDeviceInfo` (it is a function of the record alone) and agrees, for every
`UsbDeviceInfo`, with the spec's ordered rules: reject when the vendor id is
not 0x16C0; else Passthru when the product begins with "PASSTHRU"; else
SensingTex when the manufacturer is "Teensyduino"; else Sensitronics when
the manufacturer is "Sensitronics" or "Dividat"; else reject — first match
wins. -/
theorem claim_C4_classification (device : UsbDeviceInfo) :
    Enumerator.findMatchingDeviceFamily device = Enumerator.claimedDeviceFamily device := by
  unfold Enumerator.findMatchingDeviceFamily Enumerator.claimedDeviceFamily
    Enumerator.isTeensyDevice
  by_cases h : device.IdVendor = 0x16C0 <;> simp [h]

theorem connectInternal_no_nilHandlerError (st : Flex.BackendState)
    (matchedDevice : Enumerator.MatchedDevice) (openOk : Bool)
    (h : (Flex.deviceFamilyToHandler matchedDevice.Family).isSome = true) :
    Flex.Effect.nilHandlerError ∉ (Flex.connectInternal st matchedDevice openOk).2.2 := by
  unfold Flex.connectInternal
  rcases hh : Flex.deviceFamilyToHandler matchedDevice.Family with _ | handler
  · rw [hh] at h
    simp at h
  · by_cases h1 : st.currentDevice = some matchedDevice.Info
    · simp [h1]
    · by_cases h2 : openOk
      · simp only [h1, if_neg, ite_false, h2, Bool.not_true, hh]
        by_cases h3 : st.connectionActive <;>
          simp [Flex.Disconnect, Flex.afterCancelHook, h1, h2, h3, hh]
      · by_cases h3 : st.connectionActive <;>
          simp [Flex.Disconnect, Flex.afterCancelHook, h1, h2, h3]

theorem enumerated_family_handler_isSome (device : UsbDeviceInfo)
    (family : Enumerator.DeviceFamily)
    (h : Enumerator.findMatchingDeviceFamily device = some family) :
    (Flex.deviceFamilyToHandler family).isSome = true := by
  unfold Enumerator.findMatchingDeviceFamily at h
  split_ifs at h <;> cases h <;> rfl

/-- Claim C9: every device family produced by the enumerator's classifier
has a handler (`deviceFamilyToHandler` is non-nil on it), so the nil-handler
error branch of `connectInternal` is unreachable for enumerator-produced
devices. -/
theorem claim_C9_handler_total (device : UsbDeviceInfo)
    (family : Enumerator.DeviceFamily)
    (h : Enumerator.findMatchingDeviceFamily device = some family) :
    (Flex.deviceFamilyToHandler family).isSome = true
    ∧ ∀ (st : Flex.BackendState) (openOk : Bool),
        Flex.Effect.nilHandlerError ∉
          (Flex.connectInternal st ⟨family, device⟩ openOk).2.2 := by
  refine ⟨enumerated_family_handler_isSome device family h, fun st openOk => ?_⟩
  exact connectInternal_no_nilHandlerError st ⟨family, device⟩ openOk
    (enumerated_family_handler_isSome device family h)

/-- Witness for C9 at a concrete SensingTex device. -/
theorem claim_C9_handler_total_witness :
    (Flex.deviceFamilyToHandler Enumerator.DeviceFamilySensingTex).isSome = true
    ∧ ∀ (st : Flex.BackendState) (openOk : Bool),
        Flex.Effect.nilHandlerError ∉
          (Flex.connectInternal st ⟨Enumerator.DeviceFamilySensingTex, sampleTeensyInfo⟩
            openOk).2.2 :=
  claim_C9_handler_total sampleTeensyInfo Enumerator.DeviceFamilySensingTex (by decide)

/-- Claim C7: a `connectInternal` call for a device value-equal to
`currentDevice` returns success (`nil` error) with the state unchanged and
no effects (no disconnect, no port open, no broadcast, no reader spawn). -/
theorem claim_C7_connect_same_device_noop (st : Flex.BackendState)
    (matchedDevice : Enumerator.MatchedDevice) (openOk : Bool)
    (h : st.currentDevice = some matchedDevice.Info) :
    Flex.connectInternal st matchedDevice openOk = (st, none, []) := by
  unfold Flex.connectInternal
  simp [h]

/-- Witness for C7 at a concrete state already connected to the sample
device. -/
theorem claim_C7_connect_same_device_noop_witness :
    Flex.connectInternal ⟨some sampleTeensyInfo, true⟩ sampleMatchedDevice true
      = (⟨some sampleTeensyInfo, true⟩, none, []) :=
  claim_C7_connect_same_device_noop ⟨some sampleTeensyInfo, true⟩ sampleMatchedDevice true rfl

/-- Claim C8: `Disconnect` is idempotent — after one `Disconnect` a second
call leaves the state unchanged and performs no effects, and a `Disconnect`
with no live connection is a safe no-op. -/
theorem claim_C8_disconnect_idempotent (st : Flex.BackendState) :
    Flex.Disconnect (Flex.Disconnect st).1 = ((Flex.Disconnect st).1, [])
    ∧ (st.connectionActive = false → Flex.Disconnect st = (st, [])) := by
  constructor
  · by_cases h : st.connectionActive <;>
      simp [Flex.Disconnect, Flex.afterCancelHook, h]
  · intro h
    simp [Flex.Disconnect, h]

/-- Witness for C8: a connected state and a disconnected state. -/
theorem claim_C8_disconnect_idempotent_witness :
    Flex.Disconnect (Flex.Disconnect ⟨some sampleTeensyInfo, true⟩).1
        = ((Flex.Disconnect ⟨some sampleTeensyInfo, true⟩).1, [])
    ∧ Flex.Disconnect ⟨none, false⟩ = (⟨none, false⟩, []) :=
  ⟨(claim_C8_disconnect_idempotent ⟨some sampleTeensyInfo, true⟩).1,
    (claim_C8_disconnect_idempotent ⟨none, false⟩).2 rfl⟩

/-- Claim C10: a bitdepth command (`UL\n` or `UM\n`) selecting the mode that
is already configured leaves the connection state unchanged and performs no
effect (no port write, no flush, no reader restart); one selecting a
different mode performs exactly the cancel-and-await, mode write, input
flush and reader restart, updating the configured bytes per sample. -/
theorem claim_C10_bitdepth_noop (st : SensingTex.ConnState) (cmd : List UInt8)
    (hcmd : SensingTex.isBitdepthCommand cmd = true) :
    (SensingTex.bitdepthCommandToBytesPerSample cmd = st.configuredBytesPerSample →
      SensingTex.handleTxCommand st cmd = (st, []))
    ∧ (SensingTex.bitdepthCommandToBytesPerSample cmd ≠ st.configuredBytesPerSample →
      SensingTex.handleTxCommand st cmd =
        (⟨SensingTex.bitdepthCommandToBytesPerSample cmd, st.readerGeneration + 1⟩,
          [SensingTex.TxEffect.cancelAndAwaitReader, SensingTex.TxEffect.portWrite cmd,
           SensingTex.TxEffect.flushInputBuffer, SensingTex.TxEffect.restartReader])) := by
  constructor
  · intro heq
    simp [SensingTex.handleTxCommand, hcmd, heq]
  · intro hne
    simp [SensingTex.handleTxCommand, hcmd, hne]

/-- Witness for C10: `UL\n` on an 8-bit-configured state does nothing;
`UM\n` on the same state triggers the restart sequence. -/
theorem claim_C10_bitdepth_noop_witness :
    SensingTex.handleTxCommand ⟨3, 0⟩ SensingTex.BITDEPTH_8_CMD = (⟨3, 0⟩, [])
    ∧ SensingTex.handleTxCommand ⟨3, 0⟩ SensingTex.BITDEPTH_12_CMD =
        (⟨4, 1⟩,
          [SensingTex.TxEffect.cancelAndAwaitReader,
           SensingTex.TxEffect.portWrite SensingTex.BITDEPTH_12_CMD,
           SensingTex.TxEffect.flushInputBuffer, SensingTex.TxEffect.restartReader]) :=
  ⟨(claim_C10_bitdepth_noop ⟨3, 0⟩ SensingTex.BITDEPTH_8_CMD (by decide)).1 (by decide),
    (claim_C10_bitdepth_noop ⟨3, 0⟩ SensingTex.BITDEPTH_12_CMD (by decide)).2 (by decide)⟩

/-- Claim C5: well-formed TLV records round-trip through the Sensitronics
framer verbatim and in order — the framer consumes exactly `4 + length`
bytes per record (the remaining stream is untouched, as the round-trip over
a concatenation shows) and emits the full framed record, header included;
and whenever the first byte read for a record is not 0xFF, `readMessage`
fails with the marker error and the framer terminates, emitting nothing
further. -/
theorem claim_C5_tlv_roundtrip :
    (∀ records : List (List UInt8), (∀ r ∈ records, Sensitronics.WellFormedTLV r) →
      Sensitronics.runFramer records.flatten = records)
    ∧ (∀ (b : UInt8) (rest : List UInt8), b ≠ 0xFF →
      Sensitronics.readMessage (b :: rest) = Except.error Sensitronics.ReadErr.badMarker
      ∧ Sensitronics.runFramer (b :: rest) = []) := by
  constructor
  · intro records
    induction records with
    | nil =>
        intro _
        simp only [List.flatten_nil]
        exact Sensitronics.runFramer_error (e := Sensitronics.ReadErr.eof) rfl
    | cons r rs ih =>
        intro hwf
        have hr : Sensitronics.WellFormedTLV r := hwf r (List.mem_cons_self r rs)
        have hok : Sensitronics.readMessage (r ++ rs.flatten) = Except.ok (r, rs.flatten) :=
          Sensitronics.readMessage_wellFormed rs.flatten hr
        rw [List.flatten_cons, Sensitronics.runFramer_ok hok]
        exact congrArg (r :: ·) (ih (fun x hx => hwf x (List.mem_cons_of_mem r hx)))
  · intro b rest hb
    have hmsg : Sensitronics.readMessage (b :: rest)
        = Except.error Sensitronics.ReadErr.badMarker := by
      simp only [Sensitronics.readMessage, Sensitronics.HEADER_START_MARKER]
      rw [if_pos hb]
    exact ⟨hmsg, Sensitronics.runFramer_error hmsg⟩

/-- Witness for C5: two concrete records, concatenated, round-trip; a record
starting with 0x00 terminates the framer. -/
theorem claim_C5_tlv_roundtrip_witness :
    Sensitronics.runFramer ([[0xFF, 7, 2, 0, 3, 4], [0xFF, 1, 0, 0]].flatten)
        = [[0xFF, 7, 2, 0, 3, 4], [0xFF, 1, 0, 0]]
    ∧ Sensitronics.readMessage (0 :: [1, 2, 3])
          = Except.error Sensitronics.ReadErr.badMarker
      ∧ Sensitronics.runFramer (0 :: [1, 2, 3]) = [] :=
  ⟨claim_C5_tlv_roundtrip.1 [[0xFF, 7, 2, 0, 3, 4], [0xFF, 1, 0, 0]]
      (by
        intro r hr
        simp only [List.mem_cons, List.not_mem_nil, or_false] at hr
        rcases hr with rfl | rfl
        · exact ⟨7, 2, 0, [3, 4], rfl, by decide⟩
        · exact ⟨1, 0, 0, [], rfl, by decide⟩),
    claim_C5_tlv_roundtrip.2 0 [1, 2, 3] (by decide)⟩

/-- Claim C6 counterexample: the Flex session's `Discover` ignores the
duration argument, so `Discover(duration = 0)` with one matching device and
a live context emits a `Discovered` entry before closing — the channel is
not closed without emissions, contradicting the claim for the Flex session. -/
theorem claim_C6_counterexample :
    Flex.Discover 0 false [sampleMatchedDevice] ≠ [] := by
  decide

/-- Claim C6 (amended): for the Senso session, `Discover(duration = 0)`
closes the channel without emitting any entry; the Flex session's
`Discover` ignores the duration and emits one `Discovered` entry per
currently matching enumerated device, in order, before closing (so it emits
nothing only when the snapshot is empty or the connection context is
already cancelled). -/
theorem claim_C6_amended :
    (∀ env : List (Nat × ServiceEntry), Senso.Discover 0 env = [])
    ∧ (∀ (duration : Int) (ctxCancelled : Bool)
        (matching : List Enumerator.MatchedDevice),
        Flex.Discover duration ctxCancelled matching =
          if ctxCancelled then []
          else matching.map (fun matchedDevice =>
            MakeDeviceInfoUsb (Flex.concealPassthruDevice matchedDevice.Info))) := by
  constructor
  · intro env
    simp [Senso.Discover, Senso.serviceScan]
  · intro duration ctxCancelled matching
    by_cases h : ctxCancelled <;> simp [Flex.Discover, h]

/-- Claim C1 evaluation: during a firmware update (`updating = true`) the
hub drops inbound binary frames (as the claim states), but — because the Go
guard is `IsUpdatingFirmware() && (GetStatus == nil || Discover == nil)`,
and a decoded command sets exactly one variant, so the disjunction is always
true — it also ignores `GetStatus` and `Discover`, which the claim says are
still dispatched.  Outside an update, `GetStatus` is dispatched normally. -/
theorem claim_C1_code_eval :
    Websocket.handleInboundBinary true [1, 2, 3] = Websocket.InboundAction.ignored
    ∧ Websocket.handleInboundText true (some Websocket.getStatusCommand)
        = Websocket.InboundAction.ignored
    ∧ Websocket.handleInboundText true (some (Websocket.discoverCommand 5))
        = Websocket.InboundAction.ignored
    ∧ Websocket.handleInboundText false (some Websocket.getStatusCommand)
        = Websocket.InboundAction.dispatch Websocket.getStatusCommand := by
  decide

/-- Claim C2 evaluation: on the header `'N' '\n' 0x01 0x00` the claim's
big-endian reading expects a set of 256 samples, but because the Go source
declares `var length_msb byte` inside the read loop the most significant
byte is lost and `samplesLeftInSet` becomes 0; the parser then emits a frame
after the very first sample (3 bytes in 8-bit mode) instead of after 256
samples. -/
theorem claim_C2_code_eval :
    (SensingTex.runParser 3 SensingTex.initialParserState
        [78, 10, 1, 0, 80, 10, 7, 8, 9]).2 = [[7, 8, 9]] := by
  decide

/-- Claim C3 evaluation: on an `UpdateFirmware` request whose image is not
valid base64 the flow emits `FirmwareUpdateFailure` with the decode reason
and returns without invoking the firmware-update engine — but the
`updating` flag, set to `true` at entry, is left `true` (the decode-error
branch returns before any `SetUpdating(false)`), contradicting the claim
that it is cleared. -/
theorem claim_C3_code_eval :
    Senso.ProcessFirmwareUpdateRequest ⟨false, true⟩ "SN-123" "!!!!" true
      = (⟨true, true⟩,
          [Senso.UpdateEffect.progressMsg "Disconnecting from the Senso",
           Senso.UpdateEffect.cancelConnection,
           Senso.UpdateEffect.failureMsg Senso.decodeFailureReason]) := by
  decide

end DividatDriver
